import Mathlib

/-!
Verification of the FooocArte orchestration core against its specification.

This file shallowly embeds the orchestration-layer components of the
repository and proves (or refutes) the frozen claims about them:

* `modules/batch_state_machine.py` — the Batch Progress Tracker
  (`BatchStateMachine` with Spanish state names and method names).
* `modules/global_state_machine.py` — the Lifecycle State Machine
  (`GlobalStateMachine` with a validated transition table).
* `modules/batch_engine.py` — `basic_quality_filter` and the per-item
  retry executor `_run_single`, plus the best-of-N branch of `run`.
* `modules/batch_comparator.py` — `BatchComparator`.
* `fooocarte/core/persistence/storage.py` — `PersistenceManager`
  checkpoint save / recovery load.
* `fooocarte/core/quality/clip_filter.py` — `CLIPQualityFilter.score`.

Modelling conventions: Python exceptions become `Except` results; because a
raised Python exception leaves the receiver object holding whatever
mutations were already performed, every fallible operation returns
`Except (E × M) M` where the error case carries the machine as it stands
after the failed call.  Python ints are `Int` (or `Nat` for values that are
never negative in the source), Python floats are `ℚ` (all comparisons in
the source are order comparisons on exact decimal constants), and dicts of
string data are association lists.  Timestamps are omitted: no claim
mentions them and the embedding has no clock.
-/

namespace FooocArte

/-! ## Batch Progress Tracker: `modules/batch_state_machine.py` -/

/-- States of the Batch Progress Tracker (`EstadoBatch` in the source). -/
inductive EstadoBatch
  | INACTIVO
  | PREPARANDO
  | EJECUTANDO
  | EN_PAUSA
  | CANCELANDO
  | COMPLETADO
  | ERROR
deriving DecidableEq, Repr

/-- The tracker's mutable fields: `estado`, `imagen_actual`, `total`,
`error` (the stored fatal-error message). -/
structure BatchStateMachine where
  estado : EstadoBatch
  imagen_actual : Int
  total : Int
  error : Option String
deriving DecidableEq, Repr

/-- Fresh tracker, as built by `BatchStateMachine.__init__`. -/
def BatchStateMachine.init : BatchStateMachine :=
  ⟨.INACTIVO, 0, 0, none⟩

/-- Exceptions raised by the tracker: `RuntimeError` from `_assert_estado`,
`ValueError` from the `total <= 0` check in `iniciar`, and the distinct
`RuntimeError` raised by `reset` when not in a terminal state. -/
inductive BatchFailure
  | invalid_state (actual esperado : EstadoBatch)
  | validation_error (msg : String)
  | invalid_reset (actual : EstadoBatch)
deriving DecidableEq, Repr

/-- `_assert_estado`: raises `RuntimeError` unless the tracker is in the
expected state.  The error carries the unchanged machine. -/
def BatchStateMachine.assert_estado (m : BatchStateMachine) (esperado : EstadoBatch) :
    Except (BatchFailure × BatchStateMachine) Unit :=
  if m.estado = esperado then .ok () else .error (.invalid_state m.estado esperado, m)

/-- `iniciar(total)`: asserts INACTIVO first, then validates `total > 0`,
then sets the counters and moves to PREPARANDO. -/
def BatchStateMachine.iniciar (m : BatchStateMachine) (total : Int) :
    Except (BatchFailure × BatchStateMachine) BatchStateMachine :=
  match m.assert_estado .INACTIVO with
  | .error e => .error e
  | .ok _ =>
    if total ≤ 0 then .error (.validation_error "total debe ser > 0", m)
    else .ok { m with total := total, imagen_actual := 0, estado := .PREPARANDO }

/-- `preparado()`: PREPARANDO → EJECUTANDO. -/
def BatchStateMachine.preparado (m : BatchStateMachine) :
    Except (BatchFailure × BatchStateMachine) BatchStateMachine :=
  match m.assert_estado .PREPARANDO with
  | .error e => .error e
  | .ok _ => .ok { m with estado := .EJECUTANDO }

/-- `tick()`: asserts EJECUTANDO, increments `imagen_actual`, and
auto-transitions to COMPLETADO once `imagen_actual >= total`. -/
def BatchStateMachine.tick (m : BatchStateMachine) :
    Except (BatchFailure × BatchStateMachine) BatchStateMachine :=
  match m.assert_estado .EJECUTANDO with
  | .error e => .error e
  | .ok _ =>
    .ok { m with imagen_actual := m.imagen_actual + 1,
                 estado := if m.imagen_actual + 1 ≥ m.total then .COMPLETADO
                           else .EJECUTANDO }

/-- `pausar()`: EJECUTANDO → EN_PAUSA. -/
def BatchStateMachine.pausar (m : BatchStateMachine) :
    Except (BatchFailure × BatchStateMachine) BatchStateMachine :=
  match m.assert_estado .EJECUTANDO with
  | .error e => .error e
  | .ok _ => .ok { m with estado := .EN_PAUSA }

/-- `reanudar()`: EN_PAUSA → EJECUTANDO. -/
def BatchStateMachine.reanudar (m : BatchStateMachine) :
    Except (BatchFailure × BatchStateMachine) BatchStateMachine :=
  match m.assert_estado .EN_PAUSA with
  | .error e => .error e
  | .ok _ => .ok { m with estado := .EJECUTANDO }

/-- `cancelar()`: moves EJECUTANDO / EN_PAUSA / PREPARANDO to CANCELANDO,
and silently does nothing from any other state (no exception). -/
def BatchStateMachine.cancelar (m : BatchStateMachine) : BatchStateMachine :=
  if m.estado = .EJECUTANDO ∨ m.estado = .EN_PAUSA ∨ m.estado = .PREPARANDO then
    { m with estado := .CANCELANDO }
  else m

/-- `cancelar_completado()`: CANCELANDO → COMPLETADO. -/
def BatchStateMachine.cancelar_completado (m : BatchStateMachine) :
    Except (BatchFailure × BatchStateMachine) BatchStateMachine :=
  match m.assert_estado .CANCELANDO with
  | .error e => .error e
  | .ok _ => .ok { m with estado := .COMPLETADO }

/-- `error_fatal(mensaje)`: no state check at all — unconditionally sets
ERROR and stores the message.  The source body has no `raise` and no
`_assert_estado`, so the embedding always returns `.ok`. -/
def BatchStateMachine.error_fatal (m : BatchStateMachine) (mensaje : String) :
    Except (BatchFailure × BatchStateMachine) BatchStateMachine :=
  .ok { m with estado := .ERROR, error := some mensaje }

/-- `reset()`: legal only from COMPLETADO or ERROR; clears every field. -/
def BatchStateMachine.reset (m : BatchStateMachine) :
    Except (BatchFailure × BatchStateMachine) BatchStateMachine :=
  if m.estado = .COMPLETADO ∨ m.estado = .ERROR then
    .ok { m with estado := .INACTIVO, imagen_actual := 0, total := 0, error := none }
  else .error (.invalid_reset m.estado, m)

/-- Iterated `tick()`: `ticks m n` performs `tick` `n` times, stopping at
the first raised exception. -/
def BatchStateMachine.ticks (m : BatchStateMachine) :
    Nat → Except (BatchFailure × BatchStateMachine) BatchStateMachine
  | 0 => .ok m
  | n + 1 =>
    match m.tick with
    | .ok m1 => m1.ticks n
    | .error e => .error e

/-! ## Lifecycle State Machine: `modules/global_state_machine.py` -/

/-- Lifecycle states (`GlobalState` in the source). -/
inductive GlobalState
  | IDLE
  | PREPARING
  | RUNNING
  | PAUSED
  | CANCELLING
  | COMPLETED
  | ERROR
deriving DecidableEq, Repr

/-- The `_VALID_TRANSITIONS` table of `GlobalStateMachine`. -/
def valid_transition : GlobalState → GlobalState → Bool
  | .IDLE, .PREPARING => true
  | .PREPARING, .RUNNING => true
  | .PREPARING, .ERROR => true
  | .RUNNING, .PAUSED => true
  | .RUNNING, .CANCELLING => true
  | .RUNNING, .COMPLETED => true
  | .RUNNING, .ERROR => true
  | .PAUSED, .RUNNING => true
  | .PAUSED, .CANCELLING => true
  | .CANCELLING, .IDLE => true
  | .COMPLETED, .IDLE => true
  | .ERROR, .IDLE => true
  | _, _ => false

/-- Metadata dictionaries are association lists of string keys/values. -/
abbrev Metadata := List (String × String)

/-- Python `dict.update` for one key: overwrite in place if present,
append otherwise. -/
def dict_insert (d : Metadata) (k v : String) : Metadata :=
  if d.any (fun p => p.1 = k) then
    d.map (fun p => if p.1 = k then (k, v) else p)
  else d ++ [(k, v)]

/-- Python `self._metadata.update(metadata)`. -/
def dict_update (d md : Metadata) : Metadata :=
  md.foldl (fun acc p => dict_insert acc p.1 p.2) d

/-- One entry of `_state_history`: the source's keys are `from`, `to`,
`timestamp` (omitted, see header) and `metadata`. -/
structure TransitionRecord where
  src : GlobalState
  tgt : GlobalState
  metadata : Metadata
deriving DecidableEq, Repr

/-- The lifecycle machine's mutable fields: `_state`, `_metadata`,
`_error_message`, `_state_history`. -/
structure GlobalStateMachine where
  state : GlobalState
  metadata : Metadata
  error_message : Option String
  state_history : List TransitionRecord
deriving DecidableEq, Repr

/-- Fresh machine, as built by `GlobalStateMachine.__init__`. -/
def GlobalStateMachine.init : GlobalStateMachine :=
  ⟨.IDLE, [], none, []⟩

/-- `StateTransitionError`: the raised message names the current state and
the attempted target, so the embedding carries both. -/
structure StateTransitionError where
  current : GlobalState
  target : GlobalState
deriving DecidableEq, Repr

/-- `_transition(new_state, metadata)`: validates against the table before
touching anything; on success updates the state, merges non-empty metadata,
clears the error message when leaving ERROR, and appends a history record
keeping only the last 100. -/
def GlobalStateMachine.transition (m : GlobalStateMachine) (new_state : GlobalState)
    (md : Metadata) : Except StateTransitionError GlobalStateMachine :=
  if valid_transition m.state new_state then
    .ok { state := new_state
        , metadata := if md.isEmpty then m.metadata else dict_update m.metadata md
        , error_message :=
            if m.state = .ERROR ∧ new_state ≠ .ERROR then none else m.error_message
        , state_history :=
            let h := m.state_history ++ [⟨m.state, new_state, md⟩]
            if h.length > 100 then h.drop 1 else h }
  else .error ⟨m.state, new_state⟩

/-- Re-raise a `transition` failure carrying the machine as it stands after
the failed call (`m` holds any mutation performed before `_transition`). -/
def with_machine (m : GlobalStateMachine) :
    Except StateTransitionError GlobalStateMachine →
    Except (StateTransitionError × GlobalStateMachine) GlobalStateMachine
  | .ok m1 => .ok m1
  | .error e => .error (e, m)

/-- The eight public transition calls of `GlobalStateMachine`. -/
inductive GSCall
  | start_generation (md : Metadata)
  | mark_ready
  | pause
  | resume
  | cancel
  | complete (md : Metadata)
  | error (msg : String) (md : Metadata)
  | reset
deriving DecidableEq, Repr

/-- The target state each public call attempts to reach. -/
def GSCall.target : GSCall → GlobalState
  | .start_generation _ => .PREPARING
  | .mark_ready => .RUNNING
  | .pause => .PAUSED
  | .resume => .RUNNING
  | .cancel => .CANCELLING
  | .complete _ => .COMPLETED
  | .error _ _ => .ERROR
  | .reset => .IDLE

/-- Dispatch of the public API onto `_transition`.  Two calls do more than
delegate: `error` stores `_error_message` BEFORE invoking `_transition`
(so that mutation survives a failed call), and `reset` clears `_metadata`
after a successful transition to IDLE. -/
def GlobalStateMachine.apply_call (m : GlobalStateMachine) :
    GSCall → Except (StateTransitionError × GlobalStateMachine) GlobalStateMachine
  | .start_generation md => with_machine m (m.transition .PREPARING md)
  | .mark_ready => with_machine m (m.transition .RUNNING [])
  | .pause => with_machine m (m.transition .PAUSED [])
  | .resume => with_machine m (m.transition .RUNNING [])
  | .cancel => with_machine m (m.transition .CANCELLING [])
  | .complete md => with_machine m (m.transition .COMPLETED md)
  | .error msg md =>
      let m1 : GlobalStateMachine := { m with error_message := some msg }
      with_machine m1 (m1.transition .ERROR md)
  | .reset =>
      match m.transition .IDLE [] with
      | .ok m1 => .ok { m1 with metadata := [] }
      | .error e => .error (e, m)

/-! ## Quality Gate and Retry Executor: `modules/batch_engine.py` -/

/-- `basic_quality_filter(image_tensor)`: the technical filter is a pure
function of the tensor's mean and standard deviation (the source reads
`image_tensor.mean().item()` and `image_tensor.std().item()` and compares
them to exact decimal constants); those two statistics are the arguments
here.  Rejects (returns `false`) on mean below 0.05 or above 0.95, or on
standard deviation below 0.02. -/
def basic_quality_filter (mean std : ℚ) : Bool :=
  if mean < 0.05 ∨ mean > 0.95 then false
  else if std < 0.02 then false
  else true

/-- One invocation of the external pipeline (`process_tasks`): either it
raises, or it returns a result whose `image_tensor` has the given mean and
standard deviation and whose `image` is an abstract handle. -/
inductive PipelineResponse
  | failure
  | success (tensor_mean tensor_std : ℚ) (image : Nat)
deriving DecidableEq, Repr

/-- The fields of the `BatchConfig` dataclass used by `_run_single` and the
best-of-N branch. -/
structure BatchConfig where
  max_retries : Nat
  enable_quality_filter : Bool
  save_rejected : Bool
  best_of_n : Nat
deriving DecidableEq, Repr

/-- Observable outcome of one `_run_single` call: the returned tuple
`(accepted, image, score)` plus side-effect counts — pipeline invocations,
`stats.retries` increments, accepted-save and rejected-save callback
invocations.  The metadata component of the returned tuple is not modelled
beyond its presence alongside the image. -/
structure SingleResult where
  accepted : Bool
  image : Option Nat
  score : Option ℚ
  calls : Nat
  retries : Nat
  saves : Nat
  rejected_saves : Nat
deriving DecidableEq, Repr

/-- The retry loop of `_run_single`.  `attempt` mirrors the source's loop
variable; `fuel` is `max_retries + 1 - attempt` and only drives
termination (the fuel-0 branch is unreachable from `run_single`);
`result_bound` records whether a previous pipeline call in this invocation
succeeded, because the `save_rejected` block reads the loop-local `result`
variable and dies with a suppressed `NameError` when no pipeline call ever
returned.  On a successful pipeline call the technical filter runs first
and the CLIP filter second (`clip_threshold` is the resolved value of
`ui_state.get("clip_threshold", 0.25)`, `clip_loaded` the truthiness of
`self.clip_filter`, and `scorer` the per-attempt CLIP score); a rejection
by either raises `ValueError`, which the retry handler catches exactly
like a pipeline failure. -/
def run_single_go (cfg : BatchConfig) (clip_loaded : Bool) (clip_threshold : ℚ)
    (pipeline : Nat → PipelineResponse) (scorer : Nat → ℚ) (save_output : Bool) :
    Nat → Nat → Bool → SingleResult
  | _, 0, _ => ⟨false, none, none, 0, 0, 0, 0⟩
  | attempt, fuel + 1, result_bound =>
    match pipeline attempt with
    | .failure =>
      if attempt + 1 > cfg.max_retries then
        ⟨false, none, none, 1, 1, 0,
          if save_output && cfg.save_rejected && result_bound then 1 else 0⟩
      else
        let r := run_single_go cfg clip_loaded clip_threshold pipeline scorer save_output
          (attempt + 1) fuel result_bound
        { r with calls := r.calls + 1, retries := r.retries + 1 }
    | .success tensor_mean tensor_std image =>
      let tech_reject := cfg.enable_quality_filter && !basic_quality_filter tensor_mean tensor_std
      let clip_reject := cfg.enable_quality_filter && clip_loaded &&
        decide (scorer attempt < clip_threshold)
      if tech_reject || clip_reject then
        if attempt + 1 > cfg.max_retries then
          ⟨false, none, none, 1, 1, 0,
            if save_output && cfg.save_rejected then 1 else 0⟩
        else
          let r := run_single_go cfg clip_loaded clip_threshold pipeline scorer save_output
            (attempt + 1) fuel true
          { r with calls := r.calls + 1, retries := r.retries + 1 }
      else
        ⟨true, some image,
          if cfg.enable_quality_filter && clip_loaded then some (scorer attempt) else none,
          1, 0, if save_output then 1 else 0, 0⟩

/-- `_run_single(index, save_output)`: the loop starts at `attempt = 0`
with `result` unbound and runs at most `max_retries + 1` attempts. -/
def run_single (cfg : BatchConfig) (clip_loaded : Bool) (clip_threshold : ℚ)
    (pipeline : Nat → PipelineResponse) (scorer : Nat → ℚ) (save_output : Bool) :
    SingleResult :=
  run_single_go cfg clip_loaded clip_threshold pipeline scorer save_output
    0 (cfg.max_retries + 1) false

/-! ## Best-of-N Selector: `modules/batch_comparator.py` and the
best-of-n branch of `BatchEngine.run` -/

/-- `BatchComparator`: best-so-far score (initialised to -1), image and
metadata handles. -/
structure BatchComparator where
  best_score : ℚ
  best_image : Option Nat
  best_metadata : Option Nat
deriving DecidableEq, Repr

/-- `BatchComparator.__init__`. -/
def BatchComparator.init : BatchComparator := ⟨-1, none, none⟩

/-- `consider(image, score, metadata)`: strictly-greater-than
replacement. -/
def BatchComparator.consider (c : BatchComparator) (image : Nat) (score : ℚ)
    (metadata : Nat) : BatchComparator :=
  if score > c.best_score then ⟨score, some image, some metadata⟩ else c

/-- `result()`: the winning image and metadata. -/
def BatchComparator.result (c : BatchComparator) : Option Nat × Option Nat :=
  (c.best_image, c.best_metadata)

/-- The candidate one `_run_single` call contributes to the comparator: the
branch guards on `if success and img:` and replaces a `None` score by 0.0
(`score if score is not None else 0.0`). -/
def candidate (r : SingleResult) : Option (Nat × ℚ) :=
  match r.accepted, r.image with
  | true, some img => some (img, r.score.getD 0)
  | _, _ => none

/-- The candidate-collection loop of the best-of-n branch: every candidate
run feeds `comparator.consider` (metadata handle not modelled, passed
as 0). -/
def consider_all (rs : List SingleResult) : BatchComparator :=
  rs.foldl
    (fun c r =>
      match candidate r with
      | some p => c.consider p.1 p.2 0
      | none => c)
    BatchComparator.init

/-- Outcome of the best-of-n branch for one outer item: whether the item
counts as accepted (`success_final`), how many times the save callback ran,
and the winning image handle. -/
structure BestOutcome where
  success : Bool
  saves : Nat
  winner : Option Nat
deriving DecidableEq, Repr

/-- The commit step after all candidates are collected: if the comparator
holds a best image, the save callback runs exactly once for it and the item
succeeds; otherwise no save runs and the item is rejected. -/
def best_of_n_commit (rs : List SingleResult) : BestOutcome :=
  match (consider_all rs).best_image with
  | some img => ⟨true, 1, some img⟩
  | none => ⟨false, 0, none⟩

/-! ## Semantic scorer: `fooocarte/core/quality/clip_filter.py` -/

/-- Outcome of the model-backed similarity computation inside
`CLIPQualityFilter.score`: either it produces a value or it raises. -/
inductive ScoreAttempt
  | value (v : ℚ)
  | raises
deriving DecidableEq, Repr

/-- `CLIPQualityFilter.score(image, prompt)`: returns 1.0 when the model
never loaded, the computed similarity when the computation succeeds, and
1.0 when the computation raises (the source catches the exception and
returns 1.0, commented "Pass on error to avoid blocking"). -/
def CLIPQualityFilter.score (model_loaded : Bool) (att : ScoreAttempt) : ℚ :=
  if model_loaded = false then 1
  else
    match att with
    | .value v => v
    | .raises => 1

/-! ## Checkpoint Store: `fooocarte/core/persistence/storage.py` -/

/-- The batch counters dictionary written into a checkpoint
(`GlobalStateMachine.batch_status` in `fooocarte/core/state`). -/
structure BatchStatus where
  current : Int
  total : Int
  valid : Int
  paused : Bool
deriving DecidableEq, Repr

/-- A checkpoint snapshot `{state, batch, metadata}` (timestamp omitted,
see header). -/
structure Checkpoint where
  state : GlobalState
  batch : BatchStatus
  metadata : Metadata
deriving DecidableEq, Repr

/-- The state of the checkpoint file on disk: missing, unparseable, or a
stored snapshot. -/
inductive CheckpointFile
  | absent
  | corrupt
  | stored (snap : Checkpoint)
deriving DecidableEq, Repr

/-- `save_state()`: atomically replaces the file with the current
snapshot. -/
def save_state (snap : Checkpoint) (_old : CheckpointFile) : CheckpointFile :=
  .stored snap

/-- `has_recovery_data()`: false when the file is missing, false when
reading or parsing raises (caught), and otherwise true iff the stored
lifecycle state is not IDLE. -/
def has_recovery_data : CheckpointFile → Bool
  | .absent => false
  | .corrupt => false
  | .stored snap => snap.state ≠ GlobalState.IDLE

/-- `load_recovery_data()`: none unless `has_recovery_data()`, else
re-reads and returns the snapshot (a raise in the re-read yields none). -/
def load_recovery_data (f : CheckpointFile) : Option Checkpoint :=
  if has_recovery_data f then
    match f with
    | .stored snap => some snap
    | _ => none
  else none

/-! ## Theorems -/

/-- C9: for every total ≤ 0, `iniciar(total)` on an INACTIVO tracker raises
`ValueError` ("ValidationError") and the tracker is carried unchanged in
the error — it remains INACTIVO with `total` and `imagen_actual`
untouched; `iniciar` also fails whenever the tracker is not INACTIVO. -/
theorem iniciar_validation_C9 :
    ∀ (m : BatchStateMachine) (total : Int),
      (m.estado = .INACTIVO → total ≤ 0 →
        m.iniciar total = .error (.validation_error "total debe ser > 0", m))
      ∧ (m.estado ≠ .INACTIVO →
        m.iniciar total = .error (.invalid_state m.estado .INACTIVO, m)) := by
  intro m total
  constructor
  · intro h ht
    simp [BatchStateMachine.iniciar, BatchStateMachine.assert_estado, h, ht]
  · intro h
    simp [BatchStateMachine.iniciar, BatchStateMachine.assert_estado, h]

/-- Witness for C9: `start(0)` and `start(-5)` on a fresh tracker both fail
with the validation error, tracker unchanged. -/
theorem iniciar_validation_C9_witness :
    BatchStateMachine.init.iniciar 0 =
      .error (.validation_error "total debe ser > 0", BatchStateMachine.init)
    ∧ BatchStateMachine.init.iniciar (-5) =
      .error (.validation_error "total debe ser > 0", BatchStateMachine.init) :=
  ⟨(iniciar_validation_C9 BatchStateMachine.init 0).1 rfl (by decide),
   (iniciar_validation_C9 BatchStateMachine.init (-5)).1 rfl (by decide)⟩

/-- C10: `error_fatal(mensaje)` is unguarded — from every tracker state it
never raises (always `.ok`), sets the state to ERROR and stores the
message; from the resulting ERROR state `reset()` is legal and restores the
fresh tracker. -/
theorem error_fatal_C10 :
    ∀ (m : BatchStateMachine) (mensaje : String),
      m.error_fatal mensaje = .ok { m with estado := .ERROR, error := some mensaje }
      ∧ BatchStateMachine.reset { m with estado := .ERROR, error := some mensaje } =
          .ok ⟨.INACTIVO, 0, 0, none⟩ := by
  intro m mensaje
  exact ⟨rfl, by simp [BatchStateMachine.reset]⟩

/-- C5: checkpoint round-trip — after `save_state` of a snapshot,
`load_recovery_data` returns exactly the saved snapshot (hence equal
lifecycle state and batch counters) unless the saved lifecycle state is
IDLE; and a missing or unreadable checkpoint file loads as none. -/
theorem checkpoint_roundtrip_C5 :
    ∀ (snap : Checkpoint) (f : CheckpointFile),
      load_recovery_data (save_state snap f) =
        (if snap.state = GlobalState.IDLE then none else some snap)
      ∧ load_recovery_data .absent = none
      ∧ load_recovery_data .corrupt = none := by
  intro snap f
  refine ⟨?_, rfl, rfl⟩
  by_cases h : snap.state = GlobalState.IDLE
  · simp [load_recovery_data, save_state, has_recovery_data, h]
  · simp [load_recovery_data, save_state, has_recovery_data, h]

/-- C6: the technical quality filter is a pure function of the sample's
statistics that rejects exactly when the mean is below 0.05 or above 0.95
or the standard deviation is below 0.02; a sample with mean 0.02 is
rejected (for every standard deviation) and one with mean 0.5 and standard
deviation 0.2 is accepted. -/
theorem basic_quality_filter_C6 :
    (∀ mean std : ℚ,
      basic_quality_filter mean std = false ↔
        (mean < 0.05 ∨ mean > 0.95 ∨ std < 0.02))
    ∧ (∀ std : ℚ, basic_quality_filter 0.02 std = false)
    ∧ basic_quality_filter 0.5 0.2 = true := by
  refine ⟨?_, ?_, ?_⟩
  · intro mean std
    unfold basic_quality_filter
    split_ifs with h1 h2
    · simp_all
      tauto
    · simp_all
    · simp_all
  · intro std
    unfold basic_quality_filter
    norm_num
  · norm_num [basic_quality_filter]

/-- C1 counterexample: the claim asserts that a failed transition call
leaves the machine entirely unchanged, including the stored error message.
But `error()` writes `_error_message` before `_transition` validates, so
calling `error("boom")` on a fresh IDLE machine raises the invalid
transition IDLE → ERROR while the stored error message has already become
"boom" (it was none before the call). -/
theorem invalid_call_C1_counterexample :
    GlobalStateMachine.init.apply_call (.error "boom" []) =
      .error (⟨.IDLE, .ERROR⟩,
        { GlobalStateMachine.init with error_message := some "boom" })
    ∧ GlobalStateMachine.init.error_message = none
    ∧ ({ GlobalStateMachine.init with error_message := some "boom" } :
          GlobalStateMachine).error_message ≠ GlobalStateMachine.init.error_message := by
  refine ⟨rfl, rfl, by simp [GlobalStateMachine.init]⟩

/-- C1 amended: every public call whose (current state, target state) pair
is not in the validated transition table raises `StateTransitionError`
naming the current and attempted target states, and leaves the state,
metadata and transition history exactly unchanged; the stored error
message is also unchanged for every call except `error(msg, ...)`, which
overwrites it with `msg` before the validation runs. -/
theorem invalid_call_C1_amended :
    ∀ (m : GlobalStateMachine) (c : GSCall),
      valid_transition m.state c.target = false →
      ∃ m1 : GlobalStateMachine,
        m.apply_call c = .error (⟨m.state, c.target⟩, m1)
        ∧ m1.state = m.state
        ∧ m1.metadata = m.metadata
        ∧ m1.state_history = m.state_history
        ∧ m1.error_message =
            (match c with
              | .error msg _ => some msg
              | _ => m.error_message) := by
  intro m c h
  cases c with
  | start_generation md =>
    refine ⟨m, ?_, rfl, rfl, rfl, rfl⟩
    simp only [GSCall.target] at h
    simp [GlobalStateMachine.apply_call, GlobalStateMachine.transition, with_machine,
      GSCall.target, h]
  | mark_ready =>
    refine ⟨m, ?_, rfl, rfl, rfl, rfl⟩
    simp only [GSCall.target] at h
    simp [GlobalStateMachine.apply_call, GlobalStateMachine.transition, with_machine,
      GSCall.target, h]
  | pause =>
    refine ⟨m, ?_, rfl, rfl, rfl, rfl⟩
    simp only [GSCall.target] at h
    simp [GlobalStateMachine.apply_call, GlobalStateMachine.transition, with_machine,
      GSCall.target, h]
  | resume =>
    refine ⟨m, ?_, rfl, rfl, rfl, rfl⟩
    simp only [GSCall.target] at h
    simp [GlobalStateMachine.apply_call, GlobalStateMachine.transition, with_machine,
      GSCall.target, h]
  | cancel =>
    refine ⟨m, ?_, rfl, rfl, rfl, rfl⟩
    simp only [GSCall.target] at h
    simp [GlobalStateMachine.apply_call, GlobalStateMachine.transition, with_machine,
      GSCall.target, h]
  | complete md =>
    refine ⟨m, ?_, rfl, rfl, rfl, rfl⟩
    simp only [GSCall.target] at h
    simp [GlobalStateMachine.apply_call, GlobalStateMachine.transition, with_machine,
      GSCall.target, h]
  | error msg md =>
    refine ⟨{ m with error_message := some msg }, ?_, rfl, rfl, rfl, rfl⟩
    simp only [GSCall.target] at h
    simp [GlobalStateMachine.apply_call, GlobalStateMachine.transition, with_machine,
      GSCall.target, h]
  | reset =>
    refine ⟨m, ?_, rfl, rfl, rfl, rfl⟩
    simp only [GSCall.target] at h
    simp [GlobalStateMachine.apply_call, GlobalStateMachine.transition, with_machine,
      GSCall.target, h]

/-- Witness for the amended C1: `mark_ready()` from a fresh IDLE machine is
not in the transition table, raises the error naming IDLE → RUNNING, and
mutates nothing. -/
theorem invalid_call_C1_witness :
    valid_transition GlobalStateMachine.init.state GSCall.mark_ready.target = false
    ∧ ∃ m1 : GlobalStateMachine,
        GlobalStateMachine.init.apply_call .mark_ready =
          .error (⟨GlobalStateMachine.init.state, GSCall.mark_ready.target⟩, m1)
        ∧ m1.state = GlobalStateMachine.init.state
        ∧ m1.metadata = GlobalStateMachine.init.metadata
        ∧ m1.state_history = GlobalStateMachine.init.state_history
        ∧ m1.error_message =
            (match GSCall.mark_ready with
              | .error msg _ => some msg
              | _ => GlobalStateMachine.init.error_message) :=
  ⟨by decide,
   invalid_call_C1_amended GlobalStateMachine.init .mark_ready (by decide)⟩

/-- One `tick()` from EJECUTANDO: increments the counter and completes
exactly when the new counter reaches the total. -/
theorem tick_running (i total : Int) (e : Option String) :
    BatchStateMachine.tick ⟨.EJECUTANDO, i, total, e⟩ =
      .ok ⟨if i + 1 ≥ total then .COMPLETADO else .EJECUTANDO, i + 1, total, e⟩ := by
  simp [BatchStateMachine.tick, BatchStateMachine.assert_estado]

/-- Iterated `tick()` from EJECUTANDO never raises while the counter stays
within the total, and the state is COMPLETADO exactly when the counter has
reached the total after at least one tick. -/
theorem ticks_running :
    ∀ (k : Nat) (i total : Int) (e : Option String),
      i + k ≤ total →
      BatchStateMachine.ticks ⟨.EJECUTANDO, i, total, e⟩ k =
        .ok ⟨if total ≤ i + k ∧ 0 < k then .COMPLETADO else .EJECUTANDO,
             i + k, total, e⟩ := by
  intro k
  induction k with
  | zero =>
    intro i total e h
    simp [BatchStateMachine.ticks]
  | succ n ih =>
    intro i total e h
    rw [BatchStateMachine.ticks, tick_running]
    dsimp only
    by_cases hc : i + 1 ≥ total
    · have hn : n = 0 := by omega
      subst hn
      rw [if_pos hc]
      simp only [BatchStateMachine.ticks]
      have hcond : total ≤ i + ((0 + 1 : Nat) : Int) ∧ 0 < 0 + 1 :=
        ⟨by push_cast; omega, by omega⟩
      rw [if_pos hcond]
      have harith : i + ((0 + 1 : Nat) : Int) = i + 1 := by push_cast; ring
      rw [harith]
    · rw [if_neg hc]
      have h' : (i + 1) + (n : Int) ≤ total := by push_cast at h ⊢; omega
      rw [ih (i + 1) total e h']
      have harith : i + 1 + (n : Int) = i + ((n + 1 : Nat) : Int) := by push_cast; ring
      have hcond : (total ≤ i + ((n + 1 : Nat) : Int) ∧ 0 < n) =
          (total ≤ i + ((n + 1 : Nat) : Int) ∧ 0 < n + 1) := by
        apply propext
        constructor
        · rintro ⟨a, b⟩
          exact ⟨by omega, by omega⟩
        · rintro ⟨a, b⟩
          refine ⟨by omega, ?_⟩
          by_contra hzero
          have hn0 : n = 0 := by omega
          subst hn0
          apply hc
          push_cast at a
          omega
      simp only [hcond, harith]

/-- C2: a tracker started with total > 0 and brought to EJECUTANDO reaches
COMPLETADO exactly on the total-th `tick()`, stays EJECUTANDO (no other
state) after each of the first total - 1 ticks with the counter advancing
by one per call, and `tick()` raises whenever the tracker is not
EJECUTANDO. -/
theorem tracker_tick_C2 :
    ∀ (total : Int) (m : BatchStateMachine),
      0 < total → m.estado = .INACTIVO →
      ((m.iniciar total).bind (fun m1 => m1.preparado) =
          .ok ⟨.EJECUTANDO, 0, total, m.error⟩)
      ∧ (∀ k : Nat, (k : Int) < total →
          BatchStateMachine.ticks ⟨.EJECUTANDO, 0, total, m.error⟩ k =
            .ok ⟨.EJECUTANDO, (k : Int), total, m.error⟩)
      ∧ BatchStateMachine.ticks ⟨.EJECUTANDO, 0, total, m.error⟩ total.toNat =
          .ok ⟨.COMPLETADO, total, total, m.error⟩
      ∧ (∀ m2 : BatchStateMachine, m2.estado ≠ .EJECUTANDO →
          m2.tick = .error (.invalid_state m2.estado .EJECUTANDO, m2)) := by
  intro total m htotal hestado
  have hnot : ¬ total ≤ 0 := by omega
  refine ⟨?_, ?_, ?_, ?_⟩
  · simp [BatchStateMachine.iniciar, BatchStateMachine.preparado,
      BatchStateMachine.assert_estado, hestado, hnot, Except.bind]
  · intro k hk
    rw [ticks_running k 0 total m.error (by omega)]
    rw [if_neg (by omega)]
    norm_num
  · rw [ticks_running total.toNat 0 total m.error (by omega)]
    rw [if_pos (by constructor <;> omega)]
    have : ((total.toNat : Int)) = total := Int.toNat_of_nonneg (by omega)
    rw [this]
    norm_num
  · intro m2 h2
    simp [BatchStateMachine.tick, BatchStateMachine.assert_estado, h2]

/-- Witness for C2: with a fresh tracker and total = 3, three ticks from
EJECUTANDO end in COMPLETADO with the counter at 3. -/
theorem tracker_tick_C2_witness :
    (0 : Int) < 3 ∧ BatchStateMachine.init.estado = .INACTIVO
    ∧ BatchStateMachine.ticks ⟨.EJECUTANDO, 0, 3, BatchStateMachine.init.error⟩
        (3 : Int).toNat =
      .ok ⟨.COMPLETADO, 3, 3, BatchStateMachine.init.error⟩ :=
  ⟨by decide, rfl,
   (tracker_tick_C2 3 BatchStateMachine.init (by decide) rfl).2.2.1⟩

/-- When every pipeline invocation raises, the retry loop consumes all its
fuel: one pipeline call and one retry increment per remaining attempt, no
accepted result, and (since `result` never got bound) no rejected-save
unless a previous success had bound it. -/
theorem run_single_go_all_failures
    (cfg : BatchConfig) (cl : Bool) (th : ℚ) (pipeline : Nat → PipelineResponse)
    (scorer : Nat → ℚ) (so : Bool) (hp : ∀ n, pipeline n = .failure) :
    ∀ (fuel attempt : Nat) (rb : Bool),
      attempt + fuel = cfg.max_retries + 1 → 1 ≤ fuel →
      run_single_go cfg cl th pipeline scorer so attempt fuel rb =
        ⟨false, none, none, fuel, fuel, 0,
          if so && cfg.save_rejected && rb then 1 else 0⟩ := by
  intro fuel
  induction fuel with
  | zero => intro attempt rb hsum hge; omega
  | succ f ih =>
    intro attempt rb hsum hge
    simp only [run_single_go, hp attempt]
    rcases Nat.eq_zero_or_pos f with h0 | h0
    · subst h0
      rw [if_pos (by omega)]
    · rw [if_neg (by omega)]
      rw [ih (attempt + 1) rb (by omega) (by omega)]

/-- C3: with an external pipeline that raises on every invocation,
`_run_single` performs exactly max_retries + 1 pipeline calls, increments
the retry counter once per call, and returns rejected (accepted = false)
with no save of any kind; the failure never propagates — `run_single`
totally evaluates to a result. -/
theorem run_single_retries_C3 :
    ∀ (cfg : BatchConfig) (cl : Bool) (th : ℚ) (pipeline : Nat → PipelineResponse)
      (scorer : Nat → ℚ) (so : Bool),
      (∀ n, pipeline n = .failure) →
      run_single cfg cl th pipeline scorer so =
        ⟨false, none, none, cfg.max_retries + 1, cfg.max_retries + 1, 0, 0⟩ := by
  intro cfg cl th pipeline scorer so hp
  rw [run_single, run_single_go_all_failures cfg cl th pipeline scorer so hp
    (cfg.max_retries + 1) 0 false (by omega) (by omega)]
  simp

/-- Witness for C3: max_retries = 2 gives exactly 3 attempts, then a
rejected result. -/
theorem run_single_retries_C3_witness :
    (∀ n : Nat, (fun _ : Nat => PipelineResponse.failure) n = .failure)
    ∧ run_single ⟨2, true, false, 1⟩ true 0.25 (fun _ => .failure) (fun _ => 0) true =
        ⟨false, none, none, 3, 3, 0, 0⟩ :=
  ⟨fun _ => rfl,
   run_single_retries_C3 ⟨2, true, false, 1⟩ true 0.25 (fun _ => .failure)
     (fun _ => 0) true (fun _ => rfl)⟩

/-- When the quality filter is enabled, the CLIP filter is loaded, the
technical filter passes and the candidate score is strictly below the
threshold, every attempt raises the rejection `ValueError` and the retry
loop exhausts its fuel rejected. -/
theorem run_single_go_clip_rejects
    (cfg : BatchConfig) (th mean std sc : ℚ) (img : Nat) (so : Bool)
    (he : cfg.enable_quality_filter = true)
    (htech : basic_quality_filter mean std = true)
    (hsc : sc < th) :
    ∀ (fuel attempt : Nat) (rb : Bool),
      attempt + fuel = cfg.max_retries + 1 → 1 ≤ fuel →
      run_single_go cfg true th (fun _ => .success mean std img) (fun _ => sc) so
          attempt fuel rb =
        ⟨false, none, none, fuel, fuel, 0,
          if so && cfg.save_rejected then 1 else 0⟩ := by
  intro fuel
  induction fuel with
  | zero => intro attempt rb hsum hge; omega
  | succ f ih =>
    intro attempt rb hsum hge
    rcases Nat.eq_zero_or_pos f with h0 | h0
    · subst h0
      have hbr : attempt + 1 > cfg.max_retries := by omega
      simp [run_single_go, he, htech, hsc, hbr]
    · have hbr : ¬ attempt + 1 > cfg.max_retries := by omega
      have hrec := ih (attempt + 1) true (by omega) (by omega)
      simp [run_single_go, he, htech, hsc, hbr, hrec]

/-- C7: the semantic filter stage of `_run_single` rejects exactly when the
score is strictly below the configured threshold — with the technical
filter passing, the run is accepted iff not (score < threshold), and at
score equal to the threshold the very first attempt is accepted. -/
theorem clip_threshold_C7 :
    ∀ (cfg : BatchConfig) (th mean std sc : ℚ) (img : Nat) (so : Bool),
      cfg.enable_quality_filter = true →
      basic_quality_filter mean std = true →
      ((run_single cfg true th (fun _ => .success mean std img) (fun _ => sc) so).accepted
          = !decide (sc < th))
      ∧ (sc = th →
          run_single cfg true th (fun _ => .success mean std img) (fun _ => sc) so =
            ⟨true, some img, some sc, 1, 0, if so then 1 else 0, 0⟩) := by
  intro cfg th mean std sc img so he htech
  constructor
  · by_cases hsc : sc < th
    · rw [run_single, run_single_go_clip_rejects cfg th mean std sc img so he htech hsc
        (cfg.max_retries + 1) 0 false (by omega) (by omega)]
      simp [hsc]
    · rw [run_single]
      simp only [run_single_go]
      simp [he, htech, hsc]
  · intro heq
    subst heq
    rw [run_single]
    simp only [run_single_go]
    simp [he, htech]

/-- Witness for C7: with threshold 0.3, a technically clean sample and a
score of exactly 0.3, the first attempt is accepted. -/
theorem clip_threshold_C7_witness :
    (⟨2, true, false, 1⟩ : BatchConfig).enable_quality_filter = true
    ∧ basic_quality_filter 0.5 0.2 = true
    ∧ (((run_single ⟨2, true, false, 1⟩ true 0.3 (fun _ => .success 0.5 0.2 7)
          (fun _ => 0.3) true).accepted = !decide ((0.3 : ℚ) < 0.3))
        ∧ ((0.3 : ℚ) = 0.3 →
            run_single ⟨2, true, false, 1⟩ true 0.3 (fun _ => .success 0.5 0.2 7)
              (fun _ => 0.3) true =
              ⟨true, some 7, some 0.3, 1, 0, if true then 1 else 0, 0⟩)) :=
  ⟨rfl, by norm_num [basic_quality_filter],
   clip_threshold_C7 ⟨2, true, false, 1⟩ 0.3 0.5 0.2 0.3 7 true rfl
     (by norm_num [basic_quality_filter])⟩

/-- C8: the semantic scorer is fail-open — when the model never loaded or
the similarity computation raises, `score` returns 1.0 without propagating
anything, 1.0 is never strictly below any threshold in the similarity
range (threshold ≤ 1), and feeding such a score into `_run_single` accepts
on the first attempt with zero retries, so a scorer failure never causes a
quality rejection or a retry. -/
theorem clip_fail_open_C8 :
    ∀ (model_loaded : Bool) (att : ScoreAttempt) (th : ℚ) (cfg : BatchConfig)
      (mean std : ℚ) (img : Nat) (so : Bool),
      (model_loaded = false ∨ att = .raises) → th ≤ 1 →
      cfg.enable_quality_filter = true →
      basic_quality_filter mean std = true →
      CLIPQualityFilter.score model_loaded att = 1
      ∧ ¬ (CLIPQualityFilter.score model_loaded att < th)
      ∧ run_single cfg true th (fun _ => .success mean std img)
          (fun _ => CLIPQualityFilter.score model_loaded att) so =
          ⟨true, some img, some 1, 1, 0, if so then 1 else 0, 0⟩ := by
  intro ml att th cfg mean std img so hfail hth he htech
  have hscore : CLIPQualityFilter.score ml att = 1 := by
    rcases hfail with h | h
    · simp [CLIPQualityFilter.score, h]
    · subst h
      cases ml <;> simp [CLIPQualityFilter.score]
  have hnlt : ¬ (CLIPQualityFilter.score ml att < th) := by
    rw [hscore]; exact not_lt.mpr hth
  refine ⟨hscore, hnlt, ?_⟩
  rw [run_single]
  simp only [run_single_go]
  have h1 : ¬ (1 : ℚ) < th := not_lt.mpr hth
  simp [he, htech, hscore, h1]

/-- Witness for C8: an unloaded model with threshold 0.25 scores 1.0 and
the item is accepted first try. -/
theorem clip_fail_open_C8_witness :
    ((false : Bool) = false ∨ ScoreAttempt.raises = ScoreAttempt.raises)
    ∧ (0.25 : ℚ) ≤ 1
    ∧ (CLIPQualityFilter.score false .raises = 1
        ∧ ¬ (CLIPQualityFilter.score false .raises < 0.25)
        ∧ run_single ⟨2, true, false, 1⟩ true 0.25 (fun _ => .success 0.5 0.2 7)
            (fun _ => CLIPQualityFilter.score false .raises) true =
            ⟨true, some 7, some 1, 1, 0, if true then 1 else 0, 0⟩) :=
  ⟨Or.inl rfl, by norm_num,
   clip_fail_open_C8 false .raises 0.25 ⟨2, true, false, 1⟩ 0.5 0.2 7 true
     (Or.inl rfl) (by norm_num) rfl (by norm_num [basic_quality_filter])⟩

/-- Collecting candidates is the same as folding `consider` over the
accepted (image, effective score) pairs in order. -/
theorem consider_all_eq_foldl (rs : List SingleResult) :
    consider_all rs =
      (rs.filterMap candidate).foldl (fun c p => c.consider p.1 p.2 0)
        BatchComparator.init := by
  suffices h : ∀ c : BatchComparator,
      rs.foldl
        (fun c r =>
          match candidate r with
          | some p => c.consider p.1 p.2 0
          | none => c) c =
      (rs.filterMap candidate).foldl (fun c p => c.consider p.1 p.2 0) c by
    exact h BatchComparator.init
  induction rs with
  | nil => intro c; rfl
  | cons r t ih =>
    intro c
    rw [List.foldl_cons, List.filterMap_cons]
    cases hc : candidate r with
    | none => simpa [hc] using ih c
    | some p => simpa [hc] using ih (c.consider p.1 p.2 0)

/-- Folding `consider` over candidates none of which beats the running best
score leaves the comparator untouched (strict-greater replacement). -/
theorem foldl_consider_stay :
    ∀ (l : List (Nat × ℚ)) (c : BatchComparator),
      (∀ p ∈ l, p.2 ≤ c.best_score) →
      l.foldl (fun c p => c.consider p.1 p.2 0) c = c := by
  intro l
  induction l with
  | nil => intro c _; rfl
  | cons a t ih =>
    intro c h
    have ha : a.2 ≤ c.best_score := h a (by simp)
    have hstep : c.consider a.1 a.2 0 = c := by
      unfold BatchComparator.consider
      rw [if_neg (not_lt.mpr ha)]
    rw [List.foldl_cons, hstep]
    exact ih c (fun p hp => h p (by simp [hp]))

/-- Folding `consider` over candidates at least one of which beats the
starting best score ends at the earliest candidate achieving the overall
maximum: its score bounds every candidate, and every earlier candidate is
strictly below it. -/
theorem foldl_consider_win :
    ∀ (l : List (Nat × ℚ)) (c : BatchComparator),
      (∃ p ∈ l, c.best_score < p.2) →
      ∃ (j : Nat) (hj : j < l.length),
        l.foldl (fun c p => c.consider p.1 p.2 0) c =
          ⟨(l.get ⟨j, hj⟩).2, some (l.get ⟨j, hj⟩).1, some 0⟩
        ∧ c.best_score < (l.get ⟨j, hj⟩).2
        ∧ (∀ (i : Nat) (hi : i < l.length),
            (l.get ⟨i, hi⟩).2 ≤ (l.get ⟨j, hj⟩).2)
        ∧ (∀ (i : Nat) (hi : i < l.length), i < j →
            (l.get ⟨i, hi⟩).2 < (l.get ⟨j, hj⟩).2) := by
  intro l
  induction l with
  | nil => intro c h; simp at h
  | cons a t ih =>
    intro c h
    rw [List.foldl_cons]
    by_cases ha : c.best_score < a.2
    · have hstep : c.consider a.1 a.2 0 = ⟨a.2, some a.1, some 0⟩ := by
        unfold BatchComparator.consider
        rw [if_pos ha]
      rw [hstep]
      by_cases ht : ∃ p ∈ t, a.2 < p.2
      · obtain ⟨j, hj, heq, hgt, hmax, hbefore⟩ :=
          ih ⟨a.2, some a.1, some 0⟩ ht
        refine ⟨j + 1, by simpa using Nat.succ_lt_succ hj, heq, ?_, ?_, ?_⟩
        · exact lt_trans ha hgt
        · intro i hi
          cases i with
          | zero => exact le_of_lt hgt
          | succ i' => exact hmax i' (by simpa using Nat.lt_of_succ_lt_succ hi)
        · intro i hi hij
          cases i with
          | zero => exact hgt
          | succ i' =>
            exact hbefore i' (by simpa using Nat.lt_of_succ_lt_succ hi) (by omega)
      · push_neg at ht
        have hstay := foldl_consider_stay t ⟨a.2, some a.1, some 0⟩
          (fun p hp => ht p hp)
        refine ⟨0, by simp, hstay, ha, ?_, ?_⟩
        · intro i hi
          cases i with
          | zero => exact le_refl _
          | succ i' =>
            have hi' : i' < t.length := by simpa using Nat.lt_of_succ_lt_succ hi
            exact ht (t.get ⟨i', hi'⟩) (List.get_mem t i' hi')
        · intro i hi hij
          omega
    · have hstep : c.consider a.1 a.2 0 = c := by
        unfold BatchComparator.consider
        rw [if_neg ha]
      rw [hstep]
      obtain ⟨p, hp, hlt⟩ := h
      have hpt : p ∈ t := by
        rcases List.mem_cons.mp hp with h1 | h1
        · subst h1; exact absurd hlt ha
        · exact h1
      obtain ⟨j, hj, heq, hgt, hmax, hbefore⟩ := ih c ⟨p, hpt, hlt⟩
      refine ⟨j + 1, by simpa using Nat.succ_lt_succ hj, heq, hgt, ?_, ?_⟩
      · intro i hi
        cases i with
        | zero => exact le_of_lt (lt_of_le_of_lt (not_lt.mp ha) hgt)
        | succ i' => exact hmax i' (by simpa using Nat.lt_of_succ_lt_succ hi)
      · intro i hi hij
        cases i with
        | zero => exact lt_of_le_of_lt (not_lt.mp ha) hgt
        | succ i' =>
          exact hbefore i' (by simpa using Nat.lt_of_succ_lt_succ hi) (by omega)

/-- C4 counterexample: the claim says the selector keeps the accepted
candidate with the strictly highest score and invokes the save callback
exactly once for it.  But the comparator's best-so-far score starts at -1
with strict-greater replacement, so an accepted candidate whose effective
score is -1 — producible by `_run_single` when the configured threshold is
-1 and the scorer returns -1 (the low end of the CLIP similarity range) —
is silently discarded: the item is counted rejected and the save callback
never runs even though an accepted candidate with the (strictly) highest
score exists. -/
theorem best_of_n_C4_counterexample :
    run_single ⟨0, true, false, 2⟩ true (-1) (fun _ => .success 0.5 0.2 7)
        (fun _ => -1) false =
      ⟨true, some 7, some (-1), 1, 0, 0, 0⟩
    ∧ candidate ⟨true, some 7, some (-1), 1, 0, 0, 0⟩ = some (7, -1)
    ∧ best_of_n_commit [⟨true, some 7, some (-1), 1, 0, 0, 0⟩] = ⟨false, 0, none⟩ := by
  refine ⟨?_, rfl, ?_⟩
  · rw [run_single]
    simp only [run_single_go]
    norm_num [basic_quality_filter]
  · simp [best_of_n_commit, consider_all, candidate, BatchComparator.consider,
      BatchComparator.init]

/-- C4 amended: for every sequence of candidate results, if every accepted
candidate's effective score (score, or 0.0 when absent) is at most the
comparator's initial -1 — in particular if no candidate is accepted — the
item is rejected and the save callback never runs; if some accepted
candidate scores above -1, the earliest accepted candidate achieving the
maximal effective score wins, the save callback runs exactly once for it,
every candidate scores at most the winner, and every earlier candidate
scores strictly below the winner.  With candidates scoring
[0.3, 0.9, 0.6] the second is selected and saved exactly once. -/
theorem best_of_n_C4_amended :
    (∀ rs : List SingleResult,
      ((∀ p ∈ rs.filterMap candidate, p.2 ≤ -1) →
        best_of_n_commit rs = ⟨false, 0, none⟩)
      ∧ ((∃ p ∈ rs.filterMap candidate, (-1 : ℚ) < p.2) →
        ∃ (j : Nat) (hj : j < (rs.filterMap candidate).length),
          best_of_n_commit rs =
            ⟨true, 1, some (((rs.filterMap candidate).get ⟨j, hj⟩).1)⟩
          ∧ (consider_all rs).best_score = ((rs.filterMap candidate).get ⟨j, hj⟩).2
          ∧ (∀ (i : Nat) (hi : i < (rs.filterMap candidate).length),
              ((rs.filterMap candidate).get ⟨i, hi⟩).2 ≤
                ((rs.filterMap candidate).get ⟨j, hj⟩).2)
          ∧ (∀ (i : Nat) (hi : i < (rs.filterMap candidate).length), i < j →
              ((rs.filterMap candidate).get ⟨i, hi⟩).2 <
                ((rs.filterMap candidate).get ⟨j, hj⟩).2)))
    ∧ best_of_n_commit
        [⟨true, some 1, some 0.3, 1, 0, 0, 0⟩,
         ⟨true, some 2, some 0.9, 1, 0, 0, 0⟩,
         ⟨true, some 3, some 0.6, 1, 0, 0, 0⟩] = ⟨true, 1, some 2⟩ := by
  constructor
  · intro rs
    constructor
    · intro hall
      have h1 : consider_all rs = BatchComparator.init := by
        rw [consider_all_eq_foldl]
        exact foldl_consider_stay _ _ (fun p hp => hall p hp)
      rw [best_of_n_commit, h1]
      rfl
    · intro hex
      obtain ⟨j, hj, heq, _hgt, hmax, hbef⟩ :=
        foldl_consider_win (rs.filterMap candidate) BatchComparator.init hex
      have hca : consider_all rs =
          ⟨((rs.filterMap candidate).get ⟨j, hj⟩).2,
           some (((rs.filterMap candidate).get ⟨j, hj⟩).1), some 0⟩ := by
        rw [consider_all_eq_foldl]
        exact heq
      refine ⟨j, hj, ?_, ?_, hmax, hbef⟩
      · rw [best_of_n_commit, hca]
      · rw [hca]
  · norm_num [best_of_n_commit, consider_all, candidate, BatchComparator.consider,
      BatchComparator.init, List.foldl_cons, List.foldl_nil]

/-- Witness for the amended C4: a single accepted candidate with integer effective score 2 on image 5 wins and is saved once. -/
theorem best_of_n_C4_witness :
    (∃ p ∈ ([⟨true, some 5, some 2, 1, 0, 0, 0⟩] :
        List SingleResult).filterMap candidate, (-1 : ℚ) < p.2)
    ∧ ∃ (j : Nat)
        (hj : j < (([⟨true, some 5, some 2, 1, 0, 0, 0⟩] :
          List SingleResult).filterMap candidate).length),
        best_of_n_commit [⟨true, some 5, some 2, 1, 0, 0, 0⟩] =
          ⟨true, 1,
            some (((([⟨true, some 5, some 2, 1, 0, 0, 0⟩] :
              List SingleResult).filterMap candidate).get ⟨j, hj⟩).1)⟩
        ∧ (consider_all [⟨true, some 5, some 2, 1, 0, 0, 0⟩]).best_score =
            (((([⟨true, some 5, some 2, 1, 0, 0, 0⟩] :
              List SingleResult).filterMap candidate).get ⟨j, hj⟩).2)
        ∧ (∀ (i : Nat)
            (hi : i < (([⟨true, some 5, some 2, 1, 0, 0, 0⟩] :
              List SingleResult).filterMap candidate).length),
            (((([⟨true, some 5, some 2, 1, 0, 0, 0⟩] :
              List SingleResult).filterMap candidate).get ⟨i, hi⟩).2) ≤
              (((([⟨true, some 5, some 2, 1, 0, 0, 0⟩] :
                List SingleResult).filterMap candidate).get ⟨j, hj⟩).2))
        ∧ (∀ (i : Nat)
            (hi : i < (([⟨true, some 5, some 2, 1, 0, 0, 0⟩] :
              List SingleResult).filterMap candidate).length), i < j →
            (((([⟨true, some 5, some 2, 1, 0, 0, 0⟩] :
              List SingleResult).filterMap candidate).get ⟨i, hi⟩).2) <
              (((([⟨true, some 5, some 2, 1, 0, 0, 0⟩] :
                List SingleResult).filterMap candidate).get ⟨j, hj⟩).2)) :=
  ⟨by decide,
   (best_of_n_C4_amended.1 [⟨true, some 5, some 2, 1, 0, 0, 0⟩]).2 (by decide)⟩

end FooocArte
